import Mathlib

/-!
Verification of the native window-chrome layer of the wails repository
(`v2/internal/frontend/desktop/windows/window.go`), shallowly embedded in Lean.

The `Window` struct, its constructor `NewWindow`, the size-constraint and
full-screen operations, and the frameless branches of `WndProc`
(WM_NCHITTEST, WM_NCCALCSIZE, WM_DPICHANGED) are translated from the Go
source.  Platform calls that the Go code makes through `w32`/`winc`
(monitor-info retrieval, DPI scaling of system metrics, screen-to-client
conversion, the default window procedure's hit classification) are modelled
as oracle inputs carried by an environment record: the Go code only branches
on their results, never on how they are produced.
-/

/-! ### Win32 hit-test result codes (w32 package constants) -/

def HTNOWHERE : Nat := 0
def HTCLIENT : Nat := 1
def HTCAPTION : Nat := 2
def HTLEFT : Nat := 10
def HTRIGHT : Nat := 11
def HTTOP : Nat := 12
def HTTOPLEFT : Nat := 13
def HTTOPRIGHT : Nat := 14
def HTBOTTOM : Nat := 15
def HTBOTTOMLEFT : Nat := 16
def HTBOTTOMRIGHT : Nat := 17

/-- The hit-test codes that denote a window region (WM_NCHITTEST results). -/
def validRegions : List Nat :=
  [HTNOWHERE, HTCLIENT, HTCAPTION, HTLEFT, HTRIGHT, HTTOP,
   HTTOPLEFT, HTTOPRIGHT, HTBOTTOM, HTBOTTOMLEFT, HTBOTTOMRIGHT]

/-! ### Application options (`options.App`), restricted to the fields
`window.go` reads.  Go zero values are the defaults. -/

structure AppOptions where
  Width : Int := 0
  Height : Int := 0
  MinWidth : Int := 0
  MinHeight : Int := 0
  MaxWidth : Int := 0
  MaxHeight : Int := 0
  Frameless : Bool := false
  Fullscreen : Bool := false
  DisableResize : Bool := false
  AlwaysOnTop : Bool := false
deriving Repr, DecidableEq

/-! ### The embedded `winc.Form` base, at its interface.

`winc` is an external library (not part of this repository).  Modelled from
the spec: the form holds the platform-level min/max size constraints and the
full-screen presentation flag; `SetMinSize`/`SetMaxSize` push constraint
values to the platform, `Fullscreen`/`UnFullscreen` switch the presentation,
`IsFullScreen` reports the current presentation. -/

structure FormState where
  minW : Int := 0
  minH : Int := 0
  maxW : Int := 0
  maxH : Int := 0
  isFullScreen : Bool := false
deriving Repr, DecidableEq

def FormState.SetMinSize (f : FormState) (minWidth minHeight : Int) : FormState :=
  { f with minW := minWidth, minH := minHeight }

def FormState.SetMaxSize (f : FormState) (maxWidth maxHeight : Int) : FormState :=
  { f with maxW := maxWidth, maxH := maxHeight }

def FormState.Fullscreen (f : FormState) : FormState :=
  { f with isFullScreen := true }

def FormState.UnFullscreen (f : FormState) : FormState :=
  { f with isFullScreen := false }

/-! ### The `Window` struct (window.go lines 15-21): embedded form plus the
stored constraint fields `minWidth, minHeight, maxWidth, maxHeight`. -/

structure Window where
  form : FormState
  frontendOptions : AppOptions
  minWidth : Int
  minHeight : Int
  maxWidth : Int
  maxHeight : Int
deriving Repr, DecidableEq

def Window.IsFullScreen (w : Window) : Bool :=
  w.form.isFullScreen

/-- `Window.SetMinSize` (window.go lines 111-115): store, then push to the form. -/
def Window.SetMinSize (w : Window) (minWidth minHeight : Int) : Window :=
  { w with minWidth := minWidth, minHeight := minHeight,
           form := w.form.SetMinSize minWidth minHeight }

/-- `Window.SetMaxSize` (window.go lines 117-121): store, then push to the form. -/
def Window.SetMaxSize (w : Window) (maxWidth maxHeight : Int) : Window :=
  { w with maxWidth := maxWidth, maxHeight := maxHeight,
           form := w.form.SetMaxSize maxWidth maxHeight }

/-- `Window.Fullscreen` (window.go lines 96-100): clears the constraints on the
embedded form only (`w.Form.SetMaxSize` / `w.Form.SetMinSize`, not the
`Window` overrides), then requests full-screen presentation. -/
def Window.Fullscreen (w : Window) : Window :=
  { w with form := ((w.form.SetMaxSize 0 0).SetMinSize 0 0).Fullscreen }

/-- `Window.UnFullscreen` (window.go lines 102-109): early return when not
full-screen; otherwise leave full-screen and reapply the stored constraints
through the `Window` setters. -/
def Window.UnFullscreen (w : Window) : Window :=
  if !w.IsFullScreen then
    w
  else
    (({ w with form := w.form.UnFullscreen }).SetMinSize w.minWidth w.minHeight).SetMaxSize
      w.maxWidth w.maxHeight

/-- `NewWindow` (window.go lines 23-90), restricted to its state effects: the
stored constraint fields are initialised from the options, and, unless the
window starts full-screen, `SetMinSize`/`SetMaxSize` (the `Window` overrides,
since `result` is a `*Window`) push them to the form as well.  Style flags,
icon loading, title, font and menu touch only the platform handle. -/
def NewWindow (appoptions : AppOptions) : Window :=
  let result : Window :=
    { form := {},
      frontendOptions := appoptions,
      minHeight := appoptions.MinHeight,
      minWidth := appoptions.MinWidth,
      maxHeight := appoptions.MaxHeight,
      maxWidth := appoptions.MaxWidth }
  if !appoptions.Fullscreen then
    (result.SetMinSize appoptions.MinWidth appoptions.MinHeight).SetMaxSize
      appoptions.MaxWidth appoptions.MaxHeight
  else
    result

def storedConstraints (w : Window) : Int × Int × Int × Int :=
  (w.minWidth, w.minHeight, w.maxWidth, w.maxHeight)

/-! ### WM_NCHITTEST (window.go lines 164-204)

Oracle inputs: `defaultHit` is the result of `w.Form.WndProc` (the platform's
default classification of the point); `monitorInfoOk` is whether
`w32.GetMonitorInfo` succeeds; `frameY` and `padding` are the already
DPI-scaled values `winc.ScaleWithDPI(GetSystemMetrics(SM_CYFRAME), dpiY)` and
`winc.ScaleWithDPI(GetSystemMetrics(SM_CXPADDEDBORDER), dpiX)`;
`screenToClient` is the result of `w32.ScreenToClient` on the cursor position
(`none` when its `ok` flag is false, otherwise the client coordinates). -/

structure HitTestEnv where
  defaultHit : Nat
  monitorInfoOk : Bool
  frameY : Int
  padding : Int
  screenToClient : Option (Int × Int)
deriving Repr, DecidableEq

/-- The frameless WM_NCHITTEST branch.  The Go `switch hit` lists
`HTNOWHERE, HTRIGHT, HTLEFT, HTTOPLEFT, HTTOP, HTTOPRIGHT, HTBOTTOMRIGHT,
HTBOTTOM` as cases with empty bodies and `HTBOTTOMLEFT` as the case whose
body is `return hit`; Go switch cases do not fall through, so only a default
classification of `HTBOTTOMLEFT` is returned verbatim and every other value
continues into the monitor-scaled top-edge correction. -/
def nchittestFrameless (w : Window) (env : HitTestEnv) : Nat :=
  let hit := env.defaultHit
  if hit = HTBOTTOMLEFT then
    hit
  else
    if env.monitorInfoOk then
      let maxWidth := w.frontendOptions.MaxWidth
      let maxHeight := w.frontendOptions.MaxHeight
      if maxWidth > 0 || maxHeight > 0 then
        match env.screenToClient with
        | some (_, cursorY) =>
            if cursorY > 0 && cursorY < env.frameY + env.padding then
              HTTOP
            else
              HTCLIENT
        | none => HTCLIENT
      else
        HTCLIENT
    else
      HTCLIENT

/-- WM_NCHITTEST dispatch in `WndProc`: the frameless branch runs only when
`frontendOptions.Frameless` is set; otherwise the message falls through to
`w.Form.WndProc`, i.e. to the default classification. -/
def WndProcHitTest (w : Window) (env : HitTestEnv) : Nat :=
  if w.frontendOptions.Frameless then
    nchittestFrameless w env
  else
    env.defaultHit

/-! ### WM_NCCALCSIZE (window.go lines 206-248) and WM_DPICHANGED (139-147) -/

/-- `w32.RECT`.  The source fields are `int32`; the rectangles handled here are
screen coordinates far from the `int32` bounds, so they are modelled as
unbounded integers. -/
structure RECT where
  Left : Int
  Top : Int
  Right : Int
  Bottom : Int
deriving Repr, DecidableEq

/-- The frameless WM_NCCALCSIZE branch for `wparam != 0` (valid rectangle
data).  `maximized` is whether `GetWindowLong(GWL_STYLE)` has `WS_MAXIMIZE`
set; `monitorInfoOk`, `frameX`, `frameY`, `padding` are oracle inputs as in
`HitTestEnv`.  Returns the adjusted `rgrc[0]` rectangle and the `uintptr`
result (always `0`, the accept-adjusted-rectangle sentinel, on this branch). -/
def nccalcsizeFrameless (w : Window) (maximized : Bool) (monitorInfoOk : Bool)
    (frameX frameY padding : Int) (rgrc0 : RECT) : RECT × Nat :=
  if monitorInfoOk then
    let maxWidth := w.frontendOptions.MaxWidth
    let maxHeight := w.frontendOptions.MaxHeight
    if maxWidth > 0 || maxHeight > 0 then
      ({ Left := rgrc0.Left + (frameX + padding),
         Right := rgrc0.Right - (frameX + padding),
         Bottom := rgrc0.Bottom - (frameY + padding),
         Top := if maximized then rgrc0.Top + padding else rgrc0.Top }, 0)
    else
      (rgrc0, 0)
  else
    (rgrc0, 0)

/-- `w32.SetWindowPos(handle, 0, x, y, cx, cy, ...)` as a pure function on the
window bounds: position `(x, y)`, size `(cx, cy)`. -/
def setWindowPos (x y cx cy : Int) : RECT :=
  { Left := x, Top := y, Right := x + cx, Bottom := y + cy }

/-- Window state visible to the WM_DPICHANGED handler: the `Window` struct and
the platform-side window bounds. -/
structure WinState where
  window : Window
  bounds : RECT
deriving Repr, DecidableEq

/-- The WM_DPICHANGED case (window.go lines 139-147): apply the suggested
rectangle via `SetWindowPos` with position `(Left, Top)` and size
`(Right - Left, Bottom - Top)`; nothing else is touched. -/
def handleDPIChanged (s : WinState) (suggested : RECT) : WinState :=
  let newBounds := setWindowPos suggested.Left suggested.Top
    (suggested.Right - suggested.Left) (suggested.Bottom - suggested.Top)
  { s with bounds := newBounds }

/-! ### Sequences of constraint calls, for the full-screen round-trip claim -/

inductive SizeOp where
  | setMin (w h : Int)
  | setMax (w h : Int)
deriving Repr, DecidableEq

def applySizeOps (w : Window) : List SizeOp → Window
  | [] => w
  | SizeOp.setMin a b :: rest => applySizeOps (w.SetMinSize a b) rest
  | SizeOp.setMax a b :: rest => applySizeOps (w.SetMaxSize a b) rest

/-- WM_NCCALCSIZE dispatch in `WndProc`: the adjustment branch runs only when
`frontendOptions.Frameless` is set and `wparam != 0` (valid rectangle data);
`none` models falling through to `w.Form.WndProc` (default handling). -/
def WndProcCalcSize (w : Window) (wparamValid maximized monitorInfoOk : Bool)
    (frameX frameY padding : Int) (rgrc0 : RECT) : Option (RECT × Nat) :=
  if w.frontendOptions.Frameless && wparamValid then
    some (nccalcsizeFrameless w maximized monitorInfoOk frameX frameY padding rgrc0)
  else
    none

/-! ### Concrete inputs used by scenario claims and witnesses -/

def scenarioOptions : AppOptions :=
  { Width := 800, Height := 600, MinWidth := 400, MinHeight := 300, Frameless := true }

def scenarioOptionsWithMax : AppOptions :=
  { Width := 800, Height := 600, MinWidth := 400, MinHeight := 300,
    MaxWidth := 1600, MaxHeight := 1200, Frameless := true }

def envTopBand : HitTestEnv :=
  { defaultHit := HTCAPTION, monitorInfoOk := true, frameY := 4, padding := 4,
    screenToClient := some (100, 2) }

def envMonitorFail : HitTestEnv :=
  { defaultHit := HTCAPTION, monitorInfoOk := false, frameY := 4, padding := 4,
    screenToClient := some (400, 2) }

def wScenario : Window := NewWindow scenarioOptions

/-! ### Helper lemmas -/

/-- Helper: on any default classification other than `HTBOTTOMLEFT`, the
frameless hit-test continues into the top-edge-correction path (the Go
`switch` returns the default classification only from the `HTBOTTOMLEFT`
case body). -/
theorem nchittestFrameless_of_ne_bottomleft (w : Window) (env : HitTestEnv)
    (hbl : env.defaultHit ≠ HTBOTTOMLEFT) :
    nchittestFrameless w env =
      (if env.monitorInfoOk then
        if w.frontendOptions.MaxWidth > 0 || w.frontendOptions.MaxHeight > 0 then
          match env.screenToClient with
          | some (_, cursorY) =>
              if cursorY > 0 && cursorY < env.frameY + env.padding then HTTOP else HTCLIENT
          | none => HTCLIENT
        else HTCLIENT
      else HTCLIENT) := by
  simp [nchittestFrameless, hbl]

/-! ### Claim theorems -/

/-- Claim C1: the claim states that a default classification naming any resize
edge or corner is returned unchanged, never the top-edge override and never
the client-area result.  On the code this fails: the Go `switch` returns the
default classification only from the `HTBOTTOMLEFT` case body, so a default
classification of `HTRIGHT` on a frameless window falls into the top-edge
correction and — with monitor info available, a max size configured and the
cursor in the top band — comes back as `HTTOP`, the top-edge override. -/
theorem hittest_default_edge_not_returned :
    WndProcHitTest (NewWindow scenarioOptionsWithMax)
      { defaultHit := HTRIGHT, monitorInfoOk := true, frameY := 4, padding := 4,
        screenToClient := some (400, 2) } = HTTOP ∧ HTTOP ≠ HTRIGHT := by
  exact ⟨rfl, by decide⟩

/-- Claim C2 (counterexample): with the scenario options exactly as claimed —
max size unset, i.e. `MaxWidth = MaxHeight = 0` — the hit-test at client
point (400, 2) with default classification caption returns the client-area
region, not the top-resize-edge region, because the top-edge correction is
gated on `maxWidth > 0 || maxHeight > 0`. -/
theorem scenario_hittest_maxunset_counterexample :
    WndProcHitTest (NewWindow scenarioOptions)
      { defaultHit := HTCAPTION, monitorInfoOk := true, frameY := 4, padding := 4,
        screenToClient := some (400, 2) } = HTCLIENT ∧ HTCLIENT ≠ HTTOP := by
  exact ⟨rfl, by decide⟩

/-- Claim C2 (amended): for a window created with the scenario options plus a
configured max size (`MaxWidth = 1600`, `MaxHeight = 1200`), a frameless
hit-test at client point (400, 2) whose default classification is caption or
client returns the top-resize-edge region (for any scaled frame+padding
exceeding 2), and a hit-test at client point (400, 300) returns the
client-area region (for any scaled frame+padding at most 300). -/
theorem scenario_hittest_amended (hit : Nat) (frameY padding : Int)
    (hhit : hit = HTCAPTION ∨ hit = HTCLIENT)
    (hband : 2 < frameY + padding) (hbig : frameY + padding ≤ 300) :
    WndProcHitTest (NewWindow scenarioOptionsWithMax)
      { defaultHit := hit, monitorInfoOk := true, frameY := frameY, padding := padding,
        screenToClient := some (400, 2) } = HTTOP
    ∧ WndProcHitTest (NewWindow scenarioOptionsWithMax)
      { defaultHit := hit, monitorInfoOk := true, frameY := frameY, padding := padding,
        screenToClient := some (400, 300) } = HTCLIENT := by
  have hbl : hit ≠ HTBOTTOMLEFT := by
    rcases hhit with h | h <;> simp [h, HTCAPTION, HTCLIENT, HTBOTTOMLEFT]
  have hfl : (NewWindow scenarioOptionsWithMax).frontendOptions.Frameless = true := rfl
  constructor
  · rw [WndProcHitTest, if_pos hfl, nchittestFrameless_of_ne_bottomleft _ _ hbl]
    norm_num [scenarioOptionsWithMax, NewWindow, Window.SetMinSize, Window.SetMaxSize]
    omega
  · rw [WndProcHitTest, if_pos hfl, nchittestFrameless_of_ne_bottomleft _ _ hbl]
    norm_num [scenarioOptionsWithMax, NewWindow, Window.SetMinSize, Window.SetMaxSize]
    omega

/-- Claim C2 witness: the amended scenario at default classification caption
with scaled frame 4 and padding 4. -/
theorem scenario_hittest_amended_witness :
    WndProcHitTest (NewWindow scenarioOptionsWithMax)
      { defaultHit := HTCAPTION, monitorInfoOk := true, frameY := 4, padding := 4,
        screenToClient := some (400, 2) } = HTTOP
    ∧ WndProcHitTest (NewWindow scenarioOptionsWithMax)
      { defaultHit := HTCAPTION, monitorInfoOk := true, frameY := 4, padding := 4,
        screenToClient := some (400, 300) } = HTCLIENT :=
  scenario_hittest_amended HTCAPTION 4 4 (Or.inl rfl) (by decide) (by decide)

/-- Claim C3 (counterexample): at the boundary vertical offset `y = 0` —
which the claim classifies as top resize edge — the code returns the
client-area region, because the band test is the strict `cursorY > 0 &&
cursorY < frameY+padding`. -/
theorem hittest_top_boundary_counterexample :
    WndProcHitTest (NewWindow scenarioOptionsWithMax)
      { defaultHit := HTCLIENT, monitorInfoOk := true, frameY := 4, padding := 4,
        screenToClient := some (100, 0) } = HTCLIENT ∧ HTCLIENT ≠ HTTOP := by
  exact ⟨rfl, by decide⟩

/-- Claim C3 (amended): for a frameless hit-test whose default classification
is caption or client, with monitor info available, a max size constraint
configured (`MaxWidth > 0` or `MaxHeight > 0`) and the screen-to-client
conversion succeeding, a vertical client offset `0 < y < scaledFrame +
scaledPadding` is classified as top resize edge, while the boundary `y = 0`
is classified as client area. -/
theorem hittest_top_band_amended (w : Window) (env : HitTestEnv) (x y : Int)
    (hfl : w.frontendOptions.Frameless = true)
    (hhit : env.defaultHit = HTCAPTION ∨ env.defaultHit = HTCLIENT)
    (hmon : env.monitorInfoOk = true)
    (hmax : 0 < w.frontendOptions.MaxWidth ∨ 0 < w.frontendOptions.MaxHeight)
    (hs2c : env.screenToClient = some (x, y)) :
    (0 < y → y < env.frameY + env.padding → WndProcHitTest w env = HTTOP)
    ∧ (y = 0 → WndProcHitTest w env = HTCLIENT) := by
  have hbl : env.defaultHit ≠ HTBOTTOMLEFT := by
    rcases hhit with h | h <;> simp [h, HTCAPTION, HTCLIENT, HTBOTTOMLEFT]
  have hgate : (w.frontendOptions.MaxWidth > 0 || w.frontendOptions.MaxHeight > 0) = true := by
    rcases hmax with h | h <;> simp [h]
  rw [WndProcHitTest, if_pos hfl, nchittestFrameless_of_ne_bottomleft w env hbl, hmon, hs2c]
  constructor
  · intro h1 h2
    simp [hgate, h1, h2]
  · intro h0
    subst h0
    simp [hgate]

/-- Claim C3 witness: a frameless window with max size configured, default
classification caption, cursor at client offset `y = 2` inside the scaled
band `4 + 4`. -/
theorem hittest_top_band_amended_witness :
    WndProcHitTest (NewWindow scenarioOptionsWithMax) envTopBand = HTTOP :=
  (hittest_top_band_amended (NewWindow scenarioOptionsWithMax) envTopBand 100 2 rfl
    (Or.inl rfl) rfl (Or.inl (by decide)) rfl).1 (by decide) (by decide)

/-- Claim C4 (counterexample): with the window's max size unset — as the
claim allows, since it only requires frameless mode, valid rectangle data and
monitor info — the frame-calculation handler returns the proposed rectangle
unadjusted (with the accept sentinel `0`), instead of shrinking the left edge
from `0` to `0 + (frameX + padding)`. -/
theorem nccalcsize_maxunset_counterexample :
    WndProcCalcSize (NewWindow scenarioOptions) true false true 4 4 4
      { Left := 0, Top := 0, Right := 800, Bottom := 600 } =
      some ({ Left := 0, Top := 0, Right := 800, Bottom := 600 }, 0)
    ∧ (0 : Int) ≠ 0 + (4 + 4) := by
  exact ⟨rfl, by decide⟩

/-- Claim C4 (amended): for a frame-calculation query on a frameless window
with valid rectangle data, monitor info available and a max size constraint
configured (`MaxWidth > 0` or `MaxHeight > 0`), the handler shrinks the
proposed client rectangle by `frameX + padding` on the left and right and by
`frameY + padding` on the bottom, insets the top by `padding` exactly when
the window is maximized, and returns the accept-adjusted-rectangle sentinel
`0`. -/
theorem nccalcsize_shrinks_amended (w : Window) (maximized : Bool)
    (frameX frameY padding : Int) (rgrc0 : RECT)
    (hfl : w.frontendOptions.Frameless = true)
    (hmax : 0 < w.frontendOptions.MaxWidth ∨ 0 < w.frontendOptions.MaxHeight) :
    WndProcCalcSize w true maximized true frameX frameY padding rgrc0 =
      some ({ Left := rgrc0.Left + (frameX + padding),
              Right := rgrc0.Right - (frameX + padding),
              Bottom := rgrc0.Bottom - (frameY + padding),
              Top := if maximized then rgrc0.Top + padding else rgrc0.Top }, 0) := by
  have hgate : (w.frontendOptions.MaxWidth > 0 || w.frontendOptions.MaxHeight > 0) = true := by
    rcases hmax with h | h <;> simp [h]
  simp [WndProcCalcSize, nccalcsizeFrameless, hfl, hgate]

/-- Claim C4 witness: a maximized frameless window with max size configured,
scaled frame 4/4 and padding 4, proposed rectangle (0, 0, 800, 600). -/
theorem nccalcsize_shrinks_amended_witness :
    WndProcCalcSize (NewWindow scenarioOptionsWithMax) true true true 4 4 4
      { Left := 0, Top := 0, Right := 800, Bottom := 600 } =
      some ({ Left := 8, Top := 4, Right := 792, Bottom := 592 }, 0) :=
  nccalcsize_shrinks_amended (NewWindow scenarioOptionsWithMax) true 4 4 4
    { Left := 0, Top := 0, Right := 800, Bottom := 600 } rfl (Or.inl (by decide))

/-- Claim C5: after any sequence of `SetMinSize`/`SetMaxSize` calls,
`Fullscreen` immediately followed by `UnFullscreen` leaves the stored min/max
constraint fields equal, value for value, to their pre-full-screen values:
`Fullscreen` clears constraints only on the embedded form, and `UnFullscreen`
reapplies the untouched stored fields. -/
theorem fullscreen_roundtrip_restores_constraints (w0 : Window) (ops : List SizeOp) :
    storedConstraints ((applySizeOps w0 ops).Fullscreen.UnFullscreen)
      = storedConstraints (applySizeOps w0 ops) := rfl

/-- Claim C6: when the window is not full-screen, `UnFullscreen` returns the
state unchanged — full-screen flag, stored constraints and form-level
constraints included — and requests no presentation change. -/
theorem unfullscreen_noop_when_not_fullscreen (w : Window)
    (h : w.IsFullScreen = false) : w.UnFullscreen = w := by
  simp [Window.UnFullscreen, h]

/-- Claim C6 witness: a freshly created, non-full-screen scenario window. -/
theorem unfullscreen_noop_when_not_fullscreen_witness :
    wScenario.UnFullscreen = wScenario :=
  unfullscreen_noop_when_not_fullscreen wScenario rfl

/-- Claim C7: for options whose min sizes do not exceed the max sizes (when
the latter are positive), the window returned by `NewWindow` stores exactly
the `MinWidth`, `MinHeight`, `MaxWidth`, `MaxHeight` fields of the options.
(The code in fact guarantees this for all options.) -/
theorem newwindow_stores_option_constraints (appoptions : AppOptions)
    (hW : 0 < appoptions.MaxWidth → appoptions.MinWidth ≤ appoptions.MaxWidth)
    (hH : 0 < appoptions.MaxHeight → appoptions.MinHeight ≤ appoptions.MaxHeight) :
    storedConstraints (NewWindow appoptions) =
      (appoptions.MinWidth, appoptions.MinHeight, appoptions.MaxWidth, appoptions.MaxHeight) := by
  unfold NewWindow
  cases h : appoptions.Fullscreen <;>
    simp [h, Window.SetMinSize, Window.SetMaxSize, storedConstraints]

/-- Claim C7 witness: the scenario options with min 400x300 and max 1600x1200. -/
theorem newwindow_stores_option_constraints_witness :
    storedConstraints (NewWindow scenarioOptionsWithMax) = (400, 300, 1600, 1200) :=
  newwindow_stores_option_constraints scenarioOptionsWithMax (by decide) (by decide)

/-- Claim C8: the DPI-changed handler repositions the window to exactly the
suggested rectangle — position `(Left, Top)`, size `(Right - Left,
Bottom - Top)` — with no further adjustment, and leaves the `Window` struct
(stored size constraints included) untouched. -/
theorem dpichanged_applies_suggested_rect (s : WinState) (suggested : RECT) :
    (handleDPIChanged s suggested).bounds = suggested
    ∧ (handleDPIChanged s suggested).window = s.window := by
  obtain ⟨l, t, r, b⟩ := suggested
  refine ⟨?_, rfl⟩
  simp [handleDPIChanged, setWindowPos, RECT.mk.injEq]

/-- Claim C9: every frameless hit-test query yields a valid region code
(whenever the default classification is one), and on the degraded paths —
monitor info unavailable or screen-to-client conversion failing — a query
whose default classification is caption or client skips the top-edge
correction and returns the client-area region; the hit test never fails. -/
theorem hittest_total_and_degrades_to_client (w : Window) (env : HitTestEnv)
    (hfl : w.frontendOptions.Frameless = true) :
    (env.defaultHit ∈ validRegions → WndProcHitTest w env ∈ validRegions)
    ∧ ((env.defaultHit = HTCAPTION ∨ env.defaultHit = HTCLIENT) →
        env.monitorInfoOk = false ∨ env.screenToClient = none →
        WndProcHitTest w env = HTCLIENT) := by
  constructor
  · intro hmem
    rw [WndProcHitTest, if_pos hfl]
    by_cases hbl : env.defaultHit = HTBOTTOMLEFT
    · simpa [nchittestFrameless, hbl] using hmem
    · rw [nchittestFrameless_of_ne_bottomleft w env hbl]
      repeat' split
      all_goals decide
  · intro hhit hfail
    have hbl : env.defaultHit ≠ HTBOTTOMLEFT := by
      rcases hhit with h | h <;> simp [h, HTCAPTION, HTCLIENT, HTBOTTOMLEFT]
    rw [WndProcHitTest, if_pos hfl, nchittestFrameless_of_ne_bottomleft w env hbl]
    rcases hfail with h | h
    · simp [h]
    · rw [h]
      split
      · split
        · rfl
        · rfl
      · rfl

/-- Claim C9 witness: a caption-classified query on a frameless window with
monitor info unavailable yields the (valid) client-area region. -/
theorem hittest_total_and_degrades_to_client_witness :
    WndProcHitTest (NewWindow scenarioOptions) envMonitorFail ∈ validRegions
    ∧ WndProcHitTest (NewWindow scenarioOptions) envMonitorFail = HTCLIENT :=
  ⟨(hittest_total_and_degrades_to_client (NewWindow scenarioOptions) envMonitorFail rfl).1
      (by decide),
   (hittest_total_and_degrades_to_client (NewWindow scenarioOptions) envMonitorFail rfl).2
      (Or.inl rfl) (Or.inl rfl)⟩

/-- Claim C10: `Fullscreen` zeroes the min/max constraints only at the form
(platform) level and leaves the stored constraint fields unchanged;
`UnFullscreen` also preserves the stored fields, and `SetMinSize` /
`SetMaxSize` are the operations that write them. -/
theorem fullscreen_clears_only_form_constraints (w : Window) :
    storedConstraints w.Fullscreen = storedConstraints w
    ∧ w.Fullscreen.form.minW = 0 ∧ w.Fullscreen.form.minH = 0
    ∧ w.Fullscreen.form.maxW = 0 ∧ w.Fullscreen.form.maxH = 0
    ∧ storedConstraints w.UnFullscreen = storedConstraints w
    ∧ (∀ a b, storedConstraints (w.SetMinSize a b) = (a, b, w.maxWidth, w.maxHeight))
    ∧ (∀ a b, storedConstraints (w.SetMaxSize a b) = (w.minWidth, w.minHeight, a, b)) := by
  refine ⟨rfl, rfl, rfl, rfl, rfl, ?_, fun a b => rfl, fun a b => rfl⟩
  cases h : w.form.isFullScreen <;>
    simp [Window.UnFullscreen, Window.IsFullScreen, h, Window.SetMinSize, Window.SetMaxSize,
      storedConstraints]
